import Mathlib

/-!
Verification of the rtm0/era5 extract-batch-load pipeline.

This file shallowly embeds the Go sources:
  * `internal/era5/record.go` — the `Record` type and the `Scanner`
    (dimension vectors, cursor `pos`, per-timestamp batch materialization);
  * `internal/vm/client.go` (latest revision, with the metric-name
    `metricPfx` parameter) — encoder registry, line-protocol and CSV
    encoders, query-parameter functions, client construction with
    `^[a-zA-Z0-9]+$` validation of the metric-name parameter, and the
    `Insert` control flow;
  * the worker loop of `main` — chunking a batch into `recsPerInsert`-sized
    contiguous sub-slices and reporting the batch size once.

Machine integers: the Go code computes timestamps in `int64`; that arithmetic
is embedded as `Int` with an explicit twos-complement wrap (`wrap64`).
`float32` latitude/longitude values are embedded by their exact rational
values (every finite `float32` is an exact rational), and the Go `%.2f`
formatting is embedded as correct rounding of that exact value to two
decimal digits (ties to even), which is what `strconv.FormatFloat` performs.
NetCDF access is external; a metric variable getter is embedded as a
function from a timestamp index to either a 2-D (lat × lon) grid of values
or a read error, which is the collaboration contract the scanner relies on.
-/

/-- One observation at one grid cell and one timestamp
(`era5.Record`, record.go). Latitude and longitude hold the exact rational
value of the `float32` fields; metric fields hold `int16` values. -/
structure Record where
  Timestamp : Int
  Latitude : Rat
  Longitude : Rat
  ZonalWind10M : Int
  MeridionalWind10M : Int
  Temperature2M : Int
  Snowfall : Int
  TotalCloudCover : Int
  TotalPrecipitation : Int
deriving Repr, DecidableEq

/-- A metric variable accessor (`api.VarGetter` restricted to the way the
scanner uses it): reading the slice at timestamp index `pos` yields a 2-D
lat × lon grid of `int16` values, or a read error. -/
def VarGetter : Type := Nat → Except String (List (List Int))

/-- The ERA5 file scanner (`era5.Scanner`, record.go): dimension vectors,
six metric accessors, the cursor `pos`, the last materialized batch and
the last recorded error. -/
structure Scanner where
  la : List Rat
  lo : List Rat
  ts : List Int
  u10 : VarGetter
  v10 : VarGetter
  t2m : VarGetter
  sf : VarGetter
  tcc : VarGetter
  tp : VarGetter
  pos : Nat
  recs : List Record
  err : Option String

/-- Indexing `grid[i][j]` of a 2-D metric slice. The Go code trusts the
shape of the slice; out-of-range access is totalized with 0 here (the
claims proved below do not depend on metric values at ill-shaped inputs). -/
def gridAt (m : List (List Int)) (i j : Nat) : Int :=
  (m.getD i []).getD j 0

/-- The record written at loop indices `(i, j)` of the nested loop of
`Scanner.Scan` over latitudes (outer) and longitudes (inner). -/
def mkRec (t : Int) (i : Nat) (lav : Rat) (j : Nat) (lov : Rat)
    (u10 v10 t2m sf tcc tp : List (List Int)) : Record :=
  { Timestamp := t
    Latitude := lav
    Longitude := lov
    ZonalWind10M := gridAt u10 i j
    MeridionalWind10M := gridAt v10 i j
    Temperature2M := gridAt t2m i j
    Snowfall := gridAt sf i j
    TotalCloudCover := gridAt tcc i j
    TotalPrecipitation := gridAt tp i j }

/-- The nested loop of `Scanner.Scan` (record.go, lines 163-178): one record
per (latitude, longitude) pair, latitude as the outer index and longitude
as the inner index, written sequentially at `k = i * len(lo) + j`. -/
def buildRecs (t : Int) (la lo : List Rat)
    (u10 v10 t2m sf tcc tp : List (List Int)) : List Record :=
  (la.enumFrom 0).flatMap fun p =>
    (lo.enumFrom 0).map fun q => mkRec t p.1 p.2 q.1 q.2 u10 v10 t2m sf tcc tp

/-- `Scanner.Scan` (record.go): returns false if the cursor is past the end
of the timestamps vector; otherwise reads the six metric slices at the
cursor in order (u10, v10, t2m, sf, tcc, tp), recording the first read
error and returning false on failure; on success materializes the full
lat × lon batch for the timestamp at the cursor and advances `pos`. -/
def Scanner.Scan (s : Scanner) : Bool × Scanner :=
  if s.pos ≥ s.ts.length then (false, s)
  else
    match s.u10 s.pos with
    | .error e => (false, { s with err := some e })
    | .ok u10 =>
      match s.v10 s.pos with
      | .error e => (false, { s with err := some e })
      | .ok v10 =>
        match s.t2m s.pos with
        | .error e => (false, { s with err := some e })
        | .ok t2m =>
          match s.sf s.pos with
          | .error e => (false, { s with err := some e })
          | .ok sf =>
            match s.tcc s.pos with
            | .error e => (false, { s with err := some e })
            | .ok tcc =>
              match s.tp s.pos with
              | .error e => (false, { s with err := some e })
              | .ok tp =>
                (true, { s with
                  recs := buildRecs (s.ts.getD s.pos 0) s.la s.lo
                            u10 v10 t2m sf tcc tp
                  pos := s.pos + 1 })

/-- `Scanner.Records` (record.go): returns the last materialized batch and
clears it (ownership transfer to the caller). -/
def Scanner.Records (s : Scanner) : List Record × Scanner :=
  (s.recs, { s with recs := [] })

/-- `Scanner.TotalRecCount` (record.go): six metrics per grid cell per
timestamp. -/
def Scanner.TotalRecCount (s : Scanner) : Nat :=
  s.ts.length * s.la.length * s.lo.length * 6

/-- Modelled from the spec: the error accessor of the scanner
(`error() -> error|none`, spec section 4.1). The accessor itself is absent
from the files under src/ (only its caller, the newer `main`, is present);
per the spec it returns the last fatal decode error, which the scanner
stores in its `err` field. -/
def Scanner.Error (s : Scanner) : Option String :=
  s.err

/-- The first read error produced by the sequence of six
metric-slice reads of `Scanner.Scan` at the cursor (u10, v10, t2m, sf, tcc, tp, in the order
of record.go), if any. -/
def Scanner.firstReadError (s : Scanner) : Option String :=
  match s.u10 s.pos with
  | .error e => some e
  | .ok _ =>
    match s.v10 s.pos with
    | .error e => some e
    | .ok _ =>
      match s.t2m s.pos with
      | .error e => some e
      | .ok _ =>
        match s.sf s.pos with
        | .error e => some e
        | .ok _ =>
          match s.tcc s.pos with
          | .error e => some e
          | .ok _ =>
            match s.tp s.pos with
            | .error e => some e
            | .ok _ => none

/-- Modelled from the spec: the newer `NewScanner` takes an optional time
limit (`limitHours`, 0 meaning no limit — cf. the flag and the call site in
the newer `main`); that revision of record.go is not under src/. Per the
spec, when a limit is configured only the first
`min(limit, len(timestamps))` timestamps are iterated, modelled as
truncation of the timestamps vector at construction time. -/
def applyTimeLimit (limit : Nat) (ts : List Int) : List Int :=
  if limit = 0 then ts else ts.take (min limit ts.length)

/-- Seconds from 1970-01-01 back to 1900-01-01 (`unixSecs1900`, record.go). -/
def unixSecs1900 : Int := -2208988800

/-- Twos-complement wrap-around of a mathematical integer into the `int64`
range, modelling the Go 64-bit signed arithmetic. -/
def wrap64 (x : Int) : Int :=
  (x + 2 ^ 63) % 2 ^ 64 - 2 ^ 63

/-- The timestamp conversion of `NewScanner` (record.go, line 67):
`(int64(h)*3600 + unixSecs1900) * 1000`, each `int64` operation performed
with wrap-around. -/
def hoursToEpochMs (h : Int) : Int :=
  wrap64 (wrap64 (wrap64 (h * 3600) + unixSecs1900) * 1000)

/-- The timestamp vector built by `NewScanner` from the raw `int32` hour
values of the time dimension (record.go, lines 65-68). -/
def tsFromHours (hours : List Int) : List Int :=
  hours.map hoursToEpochMs

/-- The character class `[a-zA-Z0-9]` of the regular expression in
client.go. -/
def isASCIIAlphaNum (c : Char) : Bool :=
  ('a' ≤ c && c ≤ 'z') || ('A' ≤ c && c ≤ 'Z') || ('0' ≤ c && c ≤ '9')

/-- Matching of the anchored regular expression `^[a-zA-Z0-9]+$`
(`metricPrefixRE` in client.go): because of the anchors, `regexp.Match`
succeeds exactly when the whole string is a nonempty run of ASCII
alphanumeric characters. -/
def metricPfxMatches (s : String) : Bool :=
  !s.data.isEmpty && s.data.all isASCIIAlphaNum

/-- Correct rounding of `q * 100` to the nearest integer, ties to even —
the rounding `strconv.FormatFloat` applies to the exact binary value of a
float when formatting with two fixed decimals. Computed on the numerator
and denominator directly: with `N = q.num * 100`, `D = q.den`,
`f = ⌊N / D⌋` and remainder `r = N - f * D` (so `0 ≤ r < D`), the value
rounds up when `r / D > 1/2`, down when `r / D < 1/2`, and to the even
neighbour at the exact tie. -/
def roundHalfEven100 (q : Rat) : Int :=
  let N : Int := q.num * 100
  let D : Int := (q.den : Int)
  let f : Int := N.fdiv D
  let r : Int := N - f * D
  if D < 2 * r then f + 1
  else if 2 * r < D then f
  else if f % 2 = 0 then f else f + 1

/-- Two-digit zero-padded decimal numeral of a value below 100. -/
def pad2 (n : Nat) : String :=
  if n < 10 then "0" ++ toString n else toString n

/-- The Go `%.2f` formatting of a finite floating-point value given by its
exact rational value: sign of the value, then its magnitude correctly
rounded to two decimal digits. -/
def fmtF2 (q : Rat) : String :=
  let n := roundHalfEven100 q
  let sgn := if q.num < 0 then "-" else ""
  sgn ++ toString (n.natAbs / 100) ++ "." ++ pad2 (n.natAbs % 100)

/-- The Go `%d` formatting of an integer value. -/
def fmtInt (i : Int) : String :=
  toString i

/-- `recToInfluxDB` (client.go): the InfluxDB line-protocol rendering
`"%s,la=%.2f,lo=%.2f u10=%d,v10=%d,t2m=%d,sf=%d,tcc=%d,tp=%d %d"` of one
record, the metric-name parameter first. -/
def recToInfluxDB (metricPfx : String) (r : Record) : String :=
  metricPfx ++ ",la=" ++ fmtF2 r.Latitude ++ ",lo=" ++ fmtF2 r.Longitude ++
    " u10=" ++ fmtInt r.ZonalWind10M ++
    ",v10=" ++ fmtInt r.MeridionalWind10M ++
    ",t2m=" ++ fmtInt r.Temperature2M ++
    ",sf=" ++ fmtInt r.Snowfall ++
    ",tcc=" ++ fmtInt r.TotalCloudCover ++
    ",tp=" ++ fmtInt r.TotalPrecipitation ++
    " " ++ fmtInt r.Timestamp

/-- `recToCSV` (client.go): the CSV rendering
`"%d,%.2f,%.2f,%d,%d,%d,%d,%d,%d"` of one record; the metric-name
parameter is ignored. -/
def recToCSV (_metricPfx : String) (r : Record) : String :=
  fmtInt r.Timestamp ++ "," ++ fmtF2 r.Latitude ++ "," ++ fmtF2 r.Longitude ++
    "," ++ fmtInt r.ZonalWind10M ++
    "," ++ fmtInt r.MeridionalWind10M ++
    "," ++ fmtInt r.Temperature2M ++
    "," ++ fmtInt r.Snowfall ++
    "," ++ fmtInt r.TotalCloudCover ++
    "," ++ fmtInt r.TotalPrecipitation

/-- `recsToText` (client.go): serializes a batch, one rendered record per
line, each followed by a newline. -/
def recsToText (recs : List Record) (metricPfx : String)
    (recToText : String → Record → String) : String :=
  String.join (recs.map fun r => recToText metricPfx r ++ "\n")

/-- `influxDBAPIParams` (client.go): the line-protocol endpoints need no
query parameters. -/
def influxDBAPIParams (_metricPfx : String) : List (String × String) :=
  []

/-- `csvAPIParams` (client.go): the CSV endpoint needs the single `format`
query parameter, a column-mapping string with the metric-name parameter
substituted into every metric column name. -/
def csvAPIParams (metricPfx : String) : List (String × String) :=
  [("format",
    "1:time:unix_ms," ++
    "2:label:la," ++
    "3:label:lo," ++
    "4:metric:" ++ metricPfx ++ "_u10," ++
    "5:metric:" ++ metricPfx ++ "_v10," ++
    "6:metric:" ++ metricPfx ++ "_t2m," ++
    "7:metric:" ++ metricPfx ++ "_sf," ++
    "8:metric:" ++ metricPfx ++ "_tcc," ++
    "9:metric:" ++ metricPfx ++ "_tp")]

/-- The `apiParamsFuncs` static map (client.go): endpoint path to
query-parameter function. -/
def apiParamsFuncs (path : String) : Option (String → List (String × String)) :=
  if path = "/influx/write" || path = "/influx/api/v2/write" ||
      path = "/write" || path = "/api/v2/write" then
    some influxDBAPIParams
  else if path = "/api/v1/import/csv" then
    some csvAPIParams
  else
    none

/-- The `recToTextFuncs` static map (client.go): endpoint path to
record-encoding function. -/
def recToTextFuncs (path : String) : Option (String → Record → String) :=
  if path = "/influx/write" || path = "/influx/api/v2/write" ||
      path = "/write" || path = "/api/v2/write" then
    some recToInfluxDB
  else if path = "/api/v1/import/csv" then
    some recToCSV
  else
    none

/-- The constructed VM client (`vm.Client`, client.go), HTTP transport
aside: the endpoint path, the injected query parameters, the validated
metric-name parameter and the bound encoding function. -/
structure Client where
  insertURLPath : String
  queryParams : List (String × String)
  metricPfx : String
  recToText : String → Record → String

/-- `vm.NewClient` (client.go): validates the metric-name parameter against
`^[a-zA-Z0-9]+$`, resolves the query-parameter function and the encoding
function for the endpoint path (both lookups fail on unsupported paths),
and only then constructs the client. URL parsing is external and the URL
is represented by its path. -/
def NewClient (urlPath : String) (metricPfx : String) : Except String Client :=
  if metricPfxMatches metricPfx = false then
    .error ("metric prefix " ++ metricPfx ++
      " does not match ^[a-zA-Z0-9]+$ regular expression")
  else
    match apiParamsFuncs urlPath with
    | none => .error ("inserting into " ++ urlPath ++ " is not supported")
    | some apiParams =>
      match recToTextFuncs urlPath with
      | none => .error ("inserting into " ++ urlPath ++ " is not supported")
      | some recToText =>
        .ok { insertURLPath := urlPath
              queryParams := apiParams metricPfx
              metricPfx := metricPfx
              recToText := recToText }

/-- The outcome of the HTTP POST issued by `Client.Insert`: either a
transport error (no response), or a response with a status code and an
optional error from draining its body. -/
inductive PostOutcome where
  | transportError (e : String)
  | response (status : Nat) (drainErr : Option String)

/-- The observable actions `Client.Insert` performs after the POST. -/
inductive InsertEvent where
  | logPostError (e : String)
  | logUnexpectedStatus (code : Nat)
  | logDrainError (e : String)
  | drainBody
  | closeBody
deriving DecidableEq, Repr

/-- HTTP 204 (`http.StatusNoContent`). -/
def statusNoContent : Nat := 204

/-- `Client.Insert` (client.go), given the POST outcome: on transport
failure it logs and returns; otherwise it logs a warning on any status
other than 204, drains the response body (logging a drain failure), and
closes the body. The function yields only an event trace — it has no error
result, so no failure is raised to the caller. -/
def Client.Insert (out : PostOutcome) : List InsertEvent :=
  match out with
  | .transportError e => [.logPostError e]
  | .response status drainErr =>
    (if status ≠ statusNoContent then [.logUnexpectedStatus status] else []) ++
      [.drainBody] ++
      (match drainErr with
       | some e => [.logDrainError e]
       | none => []) ++
      [.closeBody]

/-- The chunking loop of the worker goroutine in `main`: from index 0,
take up to `recsPerInsert` records, step forward by `recsPerInsert`,
the final chunk possibly shorter. Structural fuel equal to the batch
length makes the recursion kernel-reducible; for `recsPerInsert ≥ 1` the
fuel is never exhausted. -/
def chunksGo (recsPerInsert : Nat) : Nat → List Record → List (List Record)
  | _, [] => []
  | 0, _ :: _ => []
  | fuel + 1, x :: xs =>
    (x :: xs).take recsPerInsert ::
      chunksGo recsPerInsert fuel ((x :: xs).drop recsPerInsert)

/-- The contiguous chunks of at most `recsPerInsert` records the worker
passes to `Insert`, in order. -/
def chunks (recsPerInsert : Nat) (recs : List Record) : List (List Record) :=
  chunksGo recsPerInsert recs.length recs

/-- One worker iteration on one batch (`main`): the chunks handed to
`Insert`, one call per chunk, and the single count — the length of the
whole batch — reported to the aggregator afterwards. -/
def workerProcessBatch (recsPerInsert : Nat) (recs : List Record) :
    List (List Record) × Nat :=
  (chunks recsPerInsert recs, recs.length)

/-- The exact rational value of the `float32` nearest to 12.345:
`12944671 / 2^20 = 12.345000267028809`. -/
def f32_12_345 : Rat := ⟨12944671, 1048576, by decide, by decide⟩

/-- The exact rational value of the `float32` nearest to -98.765:
`-6472663 / 2^16 = -98.76499938964844`. -/
def f32_neg98_765 : Rat := ⟨-6472663, 65536, by decide, by decide⟩

/-- The example record of the testable properties of the spec: timestamp 1000 at
(12.345, -98.765) — stored as `float32` — with metric values 1..6. -/
def exRec : Record :=
  { Timestamp := 1000
    Latitude := f32_12_345
    Longitude := f32_neg98_765
    ZonalWind10M := 1
    MeridionalWind10M := 2
    Temperature2M := 3
    Snowfall := 4
    TotalCloudCover := 5
    TotalPrecipitation := 6 }

/-- An all-zero record, used to build concrete batches. -/
def rec0 : Record :=
  { Timestamp := 0
    Latitude := 0
    Longitude := 0
    ZonalWind10M := 0
    MeridionalWind10M := 0
    Temperature2M := 0
    Snowfall := 0
    TotalCloudCover := 0
    TotalPrecipitation := 0 }

/-- A metric accessor that always succeeds with a fixed 2 × 2 grid. -/
def okGetter (v : Int) : VarGetter :=
  fun _ => .ok [[v, v + 1], [v + 2, v + 3]]

/-- A concrete scanner over a 2-latitude × 1-longitude grid with two
timestamps, all metric reads succeeding. -/
def sWit : Scanner :=
  { la := [⟨1, 1, by decide, by decide⟩, ⟨2, 1, by decide, by decide⟩]
    lo := [⟨3, 1, by decide, by decide⟩]
    ts := [5, 7]
    u10 := okGetter 10
    v10 := okGetter 20
    t2m := okGetter 30
    sf := okGetter 40
    tcc := okGetter 50
    tp := okGetter 60
    pos := 0
    recs := []
    err := none }

/-- The concrete scanner `sWit` with a failing first metric read. -/
def sFail : Scanner :=
  { sWit with u10 := fun _ => .error "boom" }

/-- The concrete scanner `sWit` with an empty timestamps vector: an
exhausted scanner with no recorded error. -/
def sExh : Scanner :=
  { sWit with ts := [] }
theorem wrap64_eq_self {x : Int} (h1 : -(2 ^ 63) ≤ x) (h2 : x < 2 ^ 63) :
    wrap64 x = x := by
  unfold wrap64
  have h0 : (0 : Int) ≤ x + 2 ^ 63 := by linarith
  have h3 : x + 2 ^ 63 < 2 ^ 64 := by
    have : (2 : Int) ^ 64 = 2 ^ 63 * 2 := by norm_num
    linarith
  rw [Int.emod_eq_of_lt h0 h3]
  ring

theorem enumFrom_map_getElem {α β : Type} (f : Nat × α → β) :
    ∀ (l : List α) (m j : Nat), j < l.length →
      ((List.enumFrom m l).map f)[j]? = (l[j]?).map fun a => f (m + j, a) := by
  intro l
  induction l with
  | nil => intro m j hj; simp at hj
  | cons a as ih =>
    intro m j hj
    cases j with
    | zero => simp [List.enumFrom_cons]
    | succ j =>
      rw [List.enumFrom_cons, List.map_cons, List.getElem?_cons_succ,
        List.getElem?_cons_succ, ih (m + 1) j (by simpa using hj)]
      have : m + 1 + j = m + (j + 1) := by omega
      rw [this]

theorem buildRecs_from_getElem (t : Int) (lo : List Rat)
    (u10 v10 t2m sf tcc tp : List (List Int)) :
    ∀ (la : List Rat) (n i j : Nat) (hi : i < la.length) (hj : j < lo.length),
      ((List.enumFrom n la).flatMap fun p =>
        (List.enumFrom 0 lo).map fun q =>
          mkRec t p.1 p.2 q.1 q.2 u10 v10 t2m sf tcc tp)[i * lo.length + j]? =
        some (mkRec t (n + i) (la.get ⟨i, hi⟩) j (lo.get ⟨j, hj⟩)
          u10 v10 t2m sf tcc tp) := by
  intro la
  induction la with
  | nil => intro n i j hi hj; simp at hi
  | cons a as ih =>
    intro n i j hi hj
    rw [List.enumFrom_cons, List.flatMap_cons]
    cases i with
    | zero =>
      have hlen : (0 : Nat) * lo.length + j < ((List.enumFrom 0 lo).map fun q =>
          mkRec t n a q.1 q.2 u10 v10 t2m sf tcc tp).length := by
        simp [List.enumFrom_length]
        omega
      rw [List.getElem?_append_left hlen]
      have := enumFrom_map_getElem
        (fun q => mkRec t n a q.1 q.2 u10 v10 t2m sf tcc tp) lo 0 j hj
      simp only [Nat.zero_mul, Nat.zero_add] at this ⊢
      rw [this, List.getElem?_eq_getElem hj]
      simp [List.get_eq_getElem]
    | succ i =>
      have hlen : ((List.enumFrom 0 lo).map fun q =>
          mkRec t n a q.1 q.2 u10 v10 t2m sf tcc tp).length ≤
          (i + 1) * lo.length + j := by
        simp [List.enumFrom_length]
        calc lo.length ≤ (i + 1) * lo.length := by
              have := Nat.le_mul_of_pos_left lo.length (show 0 < i + 1 by omega)
              omega
          _ ≤ (i + 1) * lo.length + j := by omega
      rw [List.getElem?_append_right hlen]
      have hidx : (i + 1) * lo.length + j -
          ((List.enumFrom 0 lo).map fun q =>
            mkRec t n a q.1 q.2 u10 v10 t2m sf tcc tp).length =
          i * lo.length + j := by
        simp [List.enumFrom_length]
        ring_nf
        omega
      rw [hidx, ih (n + 1) i j (by simpa using hi) hj]
      have : n + 1 + i = n + (i + 1) := by omega
      rw [this]
      simp [List.get_eq_getElem]

theorem buildRecs_getElem (t : Int) (la lo : List Rat)
    (u10 v10 t2m sf tcc tp : List (List Int))
    (i j : Nat) (hi : i < la.length) (hj : j < lo.length) :
    (buildRecs t la lo u10 v10 t2m sf tcc tp)[i * lo.length + j]? =
      some (mkRec t i (la.get ⟨i, hi⟩) j (lo.get ⟨j, hj⟩)
        u10 v10 t2m sf tcc tp) := by
  have := buildRecs_from_getElem t lo u10 v10 t2m sf tcc tp la 0 i j hi hj
  simpa [buildRecs] using this

theorem buildRecs_length (t : Int) (la lo : List Rat)
    (u10 v10 t2m sf tcc tp : List (List Int)) :
    (buildRecs t la lo u10 v10 t2m sf tcc tp).length =
      la.length * lo.length := by
  unfold buildRecs
  rw [List.length_flatMap]
  have : List.map
      (List.length ∘ fun p => (List.enumFrom 0 lo).map fun q =>
        mkRec t p.1 p.2 q.1 q.2 u10 v10 t2m sf tcc tp)
      (List.enumFrom 0 la) = List.replicate la.length lo.length := by
    rw [List.eq_replicate_iff]
    constructor
    · simp [List.enumFrom_length]
    · intro b hb
      simp only [List.mem_map, Function.comp] at hb
      obtain ⟨p, _, rfl⟩ := hb
      simp [List.enumFrom_length]
  rw [this, List.sum_replicate, smul_eq_mul]

theorem buildRecs_timestamp (t : Int) (la lo : List Rat)
    (u10 v10 t2m sf tcc tp : List (List Int)) (r : Record)
    (hr : r ∈ buildRecs t la lo u10 v10 t2m sf tcc tp) :
    r.Timestamp = t := by
  unfold buildRecs at hr
  rw [List.mem_flatMap] at hr
  obtain ⟨p, _, hr⟩ := hr
  rw [List.mem_map] at hr
  obtain ⟨q, _, rfl⟩ := hr
  rfl

theorem Scanner.Scan_exhausted (s : Scanner) (h : s.ts.length ≤ s.pos) :
    s.Scan = (false, s) := by
  unfold Scanner.Scan
  rw [if_pos h]

theorem Scanner.Scan_readErr (s : Scanner) (e : String)
    (hpos : s.pos < s.ts.length) (herr : s.firstReadError = some e) :
    s.Scan = (false, { s with err := some e }) := by
  unfold Scanner.firstReadError at herr
  unfold Scanner.Scan
  rw [if_neg (by omega)]
  cases h1 : s.u10 s.pos with
  | error e1 => simp only [h1] at herr ⊢; simp_all
  | ok u10 =>
    simp only [h1] at herr ⊢
    cases h2 : s.v10 s.pos with
    | error e2 => simp only [h2] at herr ⊢; simp_all
    | ok v10 =>
      simp only [h2] at herr ⊢
      cases h3 : s.t2m s.pos with
      | error e3 => simp only [h3] at herr ⊢; simp_all
      | ok t2m =>
        simp only [h3] at herr ⊢
        cases h4 : s.sf s.pos with
        | error e4 => simp only [h4] at herr ⊢; simp_all
        | ok sf =>
          simp only [h4] at herr ⊢
          cases h5 : s.tcc s.pos with
          | error e5 => simp only [h5] at herr ⊢; simp_all
          | ok tcc =>
            simp only [h5] at herr ⊢
            cases h6 : s.tp s.pos with
            | error e6 => simp only [h6] at herr ⊢; simp_all
            | ok tp => simp only [h6] at herr ⊢; simp_all

theorem Scanner.Scan_ok_inv (s sNext : Scanner) (h : s.Scan = (true, sNext)) :
    s.pos < s.ts.length ∧
      ∃ u10 v10 t2m sf tcc tp,
        s.u10 s.pos = .ok u10 ∧ s.v10 s.pos = .ok v10 ∧
        s.t2m s.pos = .ok t2m ∧ s.sf s.pos = .ok sf ∧
        s.tcc s.pos = .ok tcc ∧ s.tp s.pos = .ok tp ∧
        sNext = { s with
          recs := buildRecs (s.ts.getD s.pos 0) s.la s.lo u10 v10 t2m sf tcc tp
          pos := s.pos + 1 } := by
  unfold Scanner.Scan at h
  split at h
  · simp at h
  · next hpos =>
    refine ⟨by omega, ?_⟩
    split at h
    · simp at h
    · next u10 h1 =>
      split at h
      · simp at h
      · next v10 h2 =>
        split at h
        · simp at h
        · next t2m h3 =>
          split at h
          · simp at h
          · next sf h4 =>
            split at h
            · simp at h
            · next tcc h5 =>
              split at h
              · simp at h
              · next tp h6 =>
                refine ⟨u10, v10, t2m, sf, tcc, tp, h1, h2, h3, h4, h5, h6, ?_⟩
                injection h with hb hs
                exact hs.symm

theorem chunksGo_flatten (rpi : Nat) (hrpi : 0 < rpi) :
    ∀ (fuel : Nat) (l : List Record), l.length ≤ fuel →
      (chunksGo rpi fuel l).flatten = l := by
  intro fuel
  induction fuel with
  | zero =>
    intro l hl
    cases l with
    | nil => rfl
    | cons x xs => simp at hl
  | succ n ih =>
    intro l hl
    cases l with
    | nil => rfl
    | cons x xs =>
      show ((x :: xs).take rpi :: chunksGo rpi n ((x :: xs).drop rpi)).flatten
        = x :: xs
      rw [List.flatten_cons,
        ih _ (by rw [List.length_drop, List.length_cons]; simp at hl; omega),
        List.take_append_drop]

theorem chunksGo_size (rpi : Nat) :
    ∀ (fuel : Nat) (l : List Record) (c : List Record),
      c ∈ chunksGo rpi fuel l → c.length ≤ rpi := by
  intro fuel
  induction fuel with
  | zero =>
    intro l c hc
    cases l with
    | nil => simp [chunksGo] at hc
    | cons x xs => simp [chunksGo] at hc
  | succ n ih =>
    intro l c hc
    cases l with
    | nil => simp [chunksGo] at hc
    | cons x xs =>
      simp only [chunksGo, List.mem_cons] at hc
      rcases hc with rfl | hc
      · rw [List.length_take]; omega
      · exact ih _ _ hc

theorem chunks_flatten (rpi : Nat) (hrpi : 0 < rpi) (l : List Record) :
    (chunks rpi l).flatten = l :=
  chunksGo_flatten rpi hrpi l.length l le_rfl

theorem chunks_size (rpi : Nat) (l : List Record) (c : List Record)
    (hc : c ∈ chunks rpi l) : c.length ≤ rpi :=
  chunksGo_size rpi l.length l c hc

/-- C1: every successful `Scan` followed by `Records` yields exactly
`len(latitudes) * len(longitudes)` records, all sharing the timestamp at
the cursor position of the scanner, enumerated in row-major order with latitude
as the outer index and longitude as the inner index. -/
theorem scan_then_records_full_grid (s sNext : Scanner)
    (h : s.Scan = (true, sNext)) :
    ((sNext.Records).1.length = s.la.length * s.lo.length) ∧
    (∀ r ∈ (sNext.Records).1, r.Timestamp = s.ts.getD s.pos 0) ∧
    (∀ (i j : Nat) (hi : i < s.la.length) (hj : j < s.lo.length),
      ∃ r, ((sNext.Records).1)[i * s.lo.length + j]? = some r ∧
        r.Timestamp = s.ts.getD s.pos 0 ∧
        r.Latitude = s.la.get ⟨i, hi⟩ ∧
        r.Longitude = s.lo.get ⟨j, hj⟩) := by
  obtain ⟨hpos, u10, v10, t2m, sf, tcc, tp, h1, h2, h3, h4, h5, h6, rfl⟩ :=
    Scanner.Scan_ok_inv s sNext h
  refine ⟨?_, ?_, ?_⟩
  · exact buildRecs_length _ _ _ _ _ _ _ _ _
  · intro r hr
    exact buildRecs_timestamp _ _ _ _ _ _ _ _ _ r hr
  · intro i j hi hj
    refine ⟨mkRec (s.ts.getD s.pos 0) i (s.la.get ⟨i, hi⟩) j (s.lo.get ⟨j, hj⟩)
      u10 v10 t2m sf tcc tp, ?_, rfl, rfl, rfl⟩
    exact buildRecs_getElem (s.ts.getD s.pos 0) s.la s.lo
      u10 v10 t2m sf tcc tp i j hi hj

/-- Witness for C1: the concrete scanner `sWit` (2 latitudes, 1 longitude)
scans successfully; the batch has length 2 · 1 and the record at row-major
index 1·1+0 carries the cursor timestamp and the dimension values. -/
theorem scan_then_records_full_grid_witness :
    (((sWit.Scan).2.Records).1.length = sWit.la.length * sWit.lo.length) ∧
    (∃ r, (((sWit.Scan).2.Records).1)[1 * sWit.lo.length + 0]? = some r ∧
      r.Timestamp = sWit.ts.getD sWit.pos 0 ∧
      r.Latitude = sWit.la.get ⟨1, by decide⟩ ∧
      r.Longitude = sWit.lo.get ⟨0, by decide⟩) :=
  ⟨(scan_then_records_full_grid sWit (sWit.Scan).2 rfl).1,
   (scan_then_records_full_grid sWit (sWit.Scan).2 rfl).2.2 1 0
     (by decide) (by decide)⟩

/-- C2: every hour value read from the time dimension is converted to epoch
milliseconds as exactly `(h * 3600 + (-2208988800)) * 1000` — within the
`int32` range of the source values the `int64` arithmetic never wraps, so
the conversion is exact integer arithmetic; in particular `h = 0` maps to
`-2208988800000`. -/
theorem epoch_conversion_exact :
    (∀ h : Int, -(2 ^ 31) ≤ h → h < 2 ^ 31 →
      hoursToEpochMs h = (h * 3600 + (-2208988800)) * 1000) ∧
    hoursToEpochMs 0 = -2208988800000 := by
  constructor
  · intro h h1 h2
    have hb1 : -(2 ^ 31 : Int) * 3600 ≤ h * 3600 :=
      mul_le_mul_of_nonneg_right h1 (by norm_num)
    have hb2 : h * 3600 ≤ (2 ^ 31 : Int) * 3600 :=
      mul_le_mul_of_nonneg_right (le_of_lt h2) (by norm_num)
    simp only [hoursToEpochMs, unixSecs1900]
    have w1 : wrap64 (h * 3600) = h * 3600 :=
      wrap64_eq_self (by norm_num at hb1 ⊢; omega) (by norm_num at hb2 ⊢; omega)
    rw [w1]
    have w2 : wrap64 (h * 3600 + -2208988800) = h * 3600 + -2208988800 :=
      wrap64_eq_self (by norm_num at hb1 ⊢; omega) (by norm_num at hb2 ⊢; omega)
    rw [w2]
    have w3 : wrap64 ((h * 3600 + -2208988800) * 1000) =
        (h * 3600 + -2208988800) * 1000 :=
      wrap64_eq_self (by norm_num at hb1 ⊢; omega) (by norm_num at hb2 ⊢; omega)
    rw [w3]
  · decide

/-- Witness for C2: `h = 438300` (50 years of hours) is in the `int32`
range and converts by the exact formula. -/
theorem epoch_conversion_exact_witness :
    (-(2 ^ 31) ≤ (438300 : Int) ∧ (438300 : Int) < 2 ^ 31) ∧
    hoursToEpochMs 438300 = (438300 * 3600 + (-2208988800)) * 1000 :=
  ⟨⟨by decide, by decide⟩,
   epoch_conversion_exact.1 438300 (by decide) (by decide)⟩

/-- Counterexample for C3: the line the spec expects renders the longitude
as `-98.77`, but the encoder renders the `float32` value
`-98.76499938964844` as `-98.76`. -/
theorem influx_line_spec_example_false :
    recToInfluxDB "era5" exRec ≠
      "era5,la=12.35,lo=-98.77 u10=1,v10=2,t2m=3,sf=4,tcc=5,tp=6 1000" := by
  decide

/-- C3 amended: for every valid metric-name parameter the line-protocol
encoder produces the single line
`"<p>,la=<lat:.2f>,lo=<lon:.2f> u10=<i>,...,tp=<i> <timestamp>"`, and the
example record (float32 12.345, -98.765; metrics 1..6; timestamp 1000)
with parameter "era5" encodes to
`era5,la=12.35,lo=-98.76 u10=1,v10=2,t2m=3,sf=4,tcc=5,tp=6 1000`. -/
theorem influx_line_encoding (p : String) (r : Record)
    (hp : metricPfxMatches p = true) :
    recToInfluxDB p r =
      p ++ ",la=" ++ fmtF2 r.Latitude ++ ",lo=" ++ fmtF2 r.Longitude ++
        " u10=" ++ fmtInt r.ZonalWind10M ++
        ",v10=" ++ fmtInt r.MeridionalWind10M ++
        ",t2m=" ++ fmtInt r.Temperature2M ++
        ",sf=" ++ fmtInt r.Snowfall ++
        ",tcc=" ++ fmtInt r.TotalCloudCover ++
        ",tp=" ++ fmtInt r.TotalPrecipitation ++
        " " ++ fmtInt r.Timestamp ∧
    recToInfluxDB "era5" exRec =
      "era5,la=12.35,lo=-98.76 u10=1,v10=2,t2m=3,sf=4,tcc=5,tp=6 1000" :=
  ⟨rfl, by decide⟩

/-- Witness for C3: the metric-name parameter "era5" is valid and the
example record encodes to the corrected line. -/
theorem influx_line_encoding_witness :
    metricPfxMatches "era5" = true ∧
    recToInfluxDB "era5" exRec =
      "era5,la=12.35,lo=-98.76 u10=1,v10=2,t2m=3,sf=4,tcc=5,tp=6 1000" :=
  ⟨by decide, (influx_line_encoding "era5" exRec (by decide)).2⟩

/-- Counterexample for C4: the CSV line the spec expects renders the
longitude as `-98.77`, but the encoder renders the `float32` value
`-98.76499938964844` as `-98.76`. -/
theorem csv_spec_example_false :
    recToCSV "era5" exRec ≠ "1000,12.35,-98.77,1,2,3,4,5,6" := by
  decide

/-- C4 amended: resolving the CSV endpoint path yields the CSV encoder and
the query-parameter function producing exactly one parameter named
`format`, whose value is the column-mapping string with the metric-name
parameter substituted into every metric column name; the example record
encodes to `1000,12.35,-98.76,1,2,3,4,5,6`. -/
theorem csv_endpoint_encoding (p : String) (hp : metricPfxMatches p = true) :
    recToTextFuncs "/api/v1/import/csv" = some recToCSV ∧
    apiParamsFuncs "/api/v1/import/csv" = some csvAPIParams ∧
    csvAPIParams p =
      [("format",
        "1:time:unix_ms," ++
        "2:label:la," ++
        "3:label:lo," ++
        "4:metric:" ++ p ++ "_u10," ++
        "5:metric:" ++ p ++ "_v10," ++
        "6:metric:" ++ p ++ "_t2m," ++
        "7:metric:" ++ p ++ "_sf," ++
        "8:metric:" ++ p ++ "_tcc," ++
        "9:metric:" ++ p ++ "_tp")] ∧
    (csvAPIParams p).length = 1 ∧
    recToCSV p exRec = "1000,12.35,-98.76,1,2,3,4,5,6" :=
  ⟨rfl, rfl, rfl, rfl, rfl⟩

/-- Witness for C4: the metric-name parameter "era5" is valid; the format
query parameter and the encoded example line at that parameter. -/
theorem csv_endpoint_encoding_witness :
    metricPfxMatches "era5" = true ∧
    (csvAPIParams "era5").length = 1 ∧
    recToCSV "era5" exRec = "1000,12.35,-98.76,1,2,3,4,5,6" :=
  ⟨by decide, (csv_endpoint_encoding "era5" (by decide)).2.2.2.1,
   (csv_endpoint_encoding "era5" (by decide)).2.2.2.2⟩

set_option maxRecDepth 20000 in
/-- C5: for every batch and chunk size > 0 the worker splits the batch into
contiguous chunks of at most `recsPerInsert` records, in order, covering
every record exactly once with no overlap (their concatenation is the
batch), issues one insert per chunk, and reports the count of the whole batch
exactly once; a batch of 1234 records with chunk size 500 gives chunks of
sizes 500, 500, 234. -/
theorem worker_chunking (rpi : Nat) (l : List Record) (hrpi : 0 < rpi) :
    ((workerProcessBatch rpi l).1).flatten = l ∧
    (∀ c ∈ (workerProcessBatch rpi l).1, c.length ≤ rpi) ∧
    (workerProcessBatch rpi l).2 = l.length ∧
    (chunks 500 (List.replicate 1234 rec0)).map List.length =
      [500, 500, 234] :=
  ⟨chunks_flatten rpi hrpi l, fun c hc => chunks_size rpi l c hc, rfl,
   by decide⟩

set_option maxRecDepth 20000 in
/-- Witness for C5: chunk size 500 is positive and the chunks of a
1234-record batch concatenate back to the batch. -/
theorem worker_chunking_witness :
    (0 : Nat) < 500 ∧
    ((workerProcessBatch 500 (List.replicate 1234 rec0)).1).flatten =
      List.replicate 1234 rec0 :=
  ⟨by decide, (worker_chunking 500 (List.replicate 1234 rec0) (by decide)).1⟩

/-- C6: `Insert` never raises to its caller (it yields only an event
trace): on transport failure it logs and returns; on a response with any
status it logs a warning exactly when the status is not 204 ("no content")
yet still completes, and the body is drained and closed — the close being
the last action — regardless of status. -/
theorem insert_best_effort :
    (∀ e, Client.Insert (.transportError e) = [.logPostError e]) ∧
    (∀ (status : Nat) (drainErr : Option String),
      .drainBody ∈ Client.Insert (.response status drainErr) ∧
      (Client.Insert (.response status drainErr)).getLast? =
        some .closeBody ∧
      ((InsertEvent.logUnexpectedStatus status ∈
        Client.Insert (.response status drainErr)) ↔ status ≠ 204)) := by
  constructor
  · intro e
    rfl
  · intro status drainErr
    by_cases hs : status = 204 <;>
      cases drainErr <;>
        simp [Client.Insert, statusNoContent, hs]

/-- Witness for C6: a 500-status response is drained, a transport error is
only logged. -/
theorem insert_best_effort_witness :
    .drainBody ∈ Client.Insert (.response 500 none) ∧
    Client.Insert (.transportError "eof") = [.logPostError "eof"] :=
  ⟨(insert_best_effort.2 500 none).1, insert_best_effort.1 "eof"⟩

/-- C7: client construction validates the metric-name parameter against
`^[a-zA-Z0-9]+$` and fails (constructing no client) for every
non-matching value; it rejects "era-5", "era 5" and "", and accepts
"era5" and "ERA5x1" (constructing a client on a supported path). -/
theorem metric_prefix_validation :
    (∀ (urlPath p : String), metricPfxMatches p = false →
      ∃ e, NewClient urlPath p = .error e) ∧
    metricPfxMatches "era-5" = false ∧
    metricPfxMatches "era 5" = false ∧
    metricPfxMatches "" = false ∧
    metricPfxMatches "era5" = true ∧
    metricPfxMatches "ERA5x1" = true ∧
    (∃ c, NewClient "/write" "era5" = .ok c) ∧
    (∃ c, NewClient "/write" "ERA5x1" = .ok c) := by
  refine ⟨?_, by decide, by decide, by decide, by decide, by decide,
    ⟨_, rfl⟩, ⟨_, rfl⟩⟩
  intro urlPath p hp
  refine ⟨"metric prefix " ++ p ++
    " does not match ^[a-zA-Z0-9]+$ regular expression", ?_⟩
  simp [NewClient, hp]

/-- Witness for C7: "era 5" fails the validation and no client is
constructed for it. -/
theorem metric_prefix_validation_witness :
    metricPfxMatches "era 5" = false ∧
    ∃ e, NewClient "/api/v1/import/csv" "era 5" = .error e :=
  ⟨by decide, metric_prefix_validation.1 "/api/v1/import/csv" "era 5"
    (by decide)⟩

/-- Counterexample for C8: on the concrete exhausted scanner `sExh`
(empty timestamps vector, no prior error), `Scan` returns false but no
error is recorded — the error accessor still yields none, contradicting
the claim that exhaustion records an observable error. -/
theorem scan_exhausted_no_error_counterexample :
    (sExh.Scan).1 = false ∧ ((sExh.Scan).2).Error = none :=
  ⟨rfl, rfl⟩

/-- C8 amended: `Scan` returns false and records an error — observable via
the error accessor — whenever a metric slice read fails; when the scanner
is exhausted it returns false without recording an error, leaving the
accessor at its previous value. -/
theorem scan_false_error_cases :
    (∀ (s : Scanner) (e : String), s.pos < s.ts.length →
      s.firstReadError = some e →
      s.Scan = (false, { s with err := some e }) ∧
      ((s.Scan).2).Error = some e) ∧
    (∀ s : Scanner, s.ts.length ≤ s.pos →
      s.Scan = (false, s) ∧ ((s.Scan).2).Error = s.err) := by
  constructor
  · intro s e hpos herr
    have h := Scanner.Scan_readErr s e hpos herr
    refine ⟨h, ?_⟩
    rw [h]
    rfl
  · intro s hpos
    have h := Scanner.Scan_exhausted s hpos
    refine ⟨h, ?_⟩
    rw [h]
    rfl

/-- Witness for C8: the failing-read scanner `sFail` records "boom"; the
exhausted scanner `sExh` returns false unchanged. -/
theorem scan_false_error_cases_witness :
    (sFail.pos < sFail.ts.length ∧
      sFail.Scan = (false, { sFail with err := some "boom" })) ∧
    sExh.Scan = (false, sExh) :=
  ⟨⟨by decide, (scan_false_error_cases.1 sFail "boom" (by decide) rfl).1⟩,
   (scan_false_error_cases.2 sExh (by decide)).1⟩

/-- C9 (modelled from the spec, see `applyTimeLimit`): with a time limit
configured the scanner iterates only the first
`min(limit, len(timestamps))` timestamps — the timestamps vector is that
prefix, scanning is terminal past its end — and the total record count
used for progress reflects the bound; with no limit (0) all timestamps
are kept. -/
theorem time_limit_truncation :
    (∀ (limit : Nat) (ts : List Int), limit ≠ 0 →
      applyTimeLimit limit ts = ts.take (min limit ts.length) ∧
      (applyTimeLimit limit ts).length = min limit ts.length) ∧
    (∀ ts : List Int, applyTimeLimit 0 ts = ts) ∧
    (∀ (s : Scanner) (limit : Nat) (ts0 : List Int),
      s.ts = applyTimeLimit limit ts0 → limit ≠ 0 →
      s.TotalRecCount =
        min limit ts0.length * s.la.length * s.lo.length * 6 ∧
      (s.ts.length ≤ s.pos → (s.Scan).1 = false)) := by
  have hlen : ∀ (limit : Nat) (ts : List Int), limit ≠ 0 →
      (applyTimeLimit limit ts).length = min limit ts.length := by
    intro limit ts h
    rw [applyTimeLimit, if_neg h, List.length_take]
    omega
  refine ⟨fun limit ts h => ⟨by rw [applyTimeLimit, if_neg h], hlen limit ts h⟩,
    fun ts => by rw [applyTimeLimit, if_pos rfl], ?_⟩
  intro s limit ts0 hts h
  constructor
  · rw [Scanner.TotalRecCount, hts, hlen limit ts0 h]
  · intro hpos
    rw [Scanner.Scan_exhausted s hpos]

/-- Witness for C9: limit 2 over three timestamps keeps the first two;
limit 0 keeps all three. -/
theorem time_limit_truncation_witness :
    ((2 : Nat) ≠ 0 ∧
      applyTimeLimit 2 [1, 2, 3] =
        List.take (min 2 ([1, 2, 3] : List Int).length) [1, 2, 3]) ∧
    applyTimeLimit 0 [1, 2, 3] = [1, 2, 3] :=
  ⟨⟨by decide, (time_limit_truncation.1 2 [1, 2, 3] (by decide)).1⟩,
   time_limit_truncation.2.1 [1, 2, 3]⟩

/-- C10: when `Scan` returns false because a metric slice read failed, the
cursor is not advanced, the materialized batch is unchanged (a subsequent
`Records` call returns what it would have returned before), the dimension
vectors are untouched, and only the error field is updated, to the read
error. -/
theorem scan_read_failure_preserves_state (s : Scanner) (e : String)
    (hpos : s.pos < s.ts.length) (herr : s.firstReadError = some e) :
    (s.Scan).1 = false ∧
    ((s.Scan).2).pos = s.pos ∧
    ((s.Scan).2).recs = s.recs ∧
    (((s.Scan).2).Records).1 = (s.Records).1 ∧
    ((s.Scan).2).err = some e ∧
    ((s.Scan).2).la = s.la ∧
    ((s.Scan).2).lo = s.lo ∧
    ((s.Scan).2).ts = s.ts := by
  rw [Scanner.Scan_readErr s e hpos herr]
  exact ⟨rfl, rfl, rfl, rfl, rfl, rfl, rfl, rfl⟩

/-- Witness for C10: on the concrete failing scanner `sFail` the cursor,
batch and dimensions are preserved and only the error is set. -/
theorem scan_read_failure_preserves_state_witness :
    sFail.pos < sFail.ts.length ∧
    ((sFail.Scan).1 = false ∧
      ((sFail.Scan).2).pos = sFail.pos ∧
      ((sFail.Scan).2).recs = sFail.recs ∧
      (((sFail.Scan).2).Records).1 = (sFail.Records).1 ∧
      ((sFail.Scan).2).err = some "boom" ∧
      ((sFail.Scan).2).la = sFail.la ∧
      ((sFail.Scan).2).lo = sFail.lo ∧
      ((sFail.Scan).2).ts = sFail.ts) :=
  ⟨by decide, scan_read_failure_preserves_state sFail "boom" (by decide) rfl⟩
